import Mathlib

/-!
Shallow embedding of the reading-list backend (Express + Mongoose CRUD API).

Source files embedded:
- `src/models/Book.js` — the `Book` schema (fields, defaults, validation).
- `src/controllers/bookController.js` — `createBook`, `listBooks`, `getBook`,
  `updateBook`, `removeBook`.
- `src/middlewares/error.js` — `onError` (status taken from `err.status`,
  defaulting to 500).

Modelling decisions:
- A JavaScript string is a Lean `String`; `String.prototype.trim()` (and the
  Mongoose `trim: true` setter) is the Lean function `trimStr` below, which
  strips leading and trailing whitespace.
- MongoDB ObjectIds are modelled by `Nat`; a request path id is a `ReqId`,
  which records whether the raw string parses as a well-formed ObjectId
  (`ReqId.oid n`) or not (`ReqId.malformed s`).  Mongoose casts the id before
  querying and rejects a malformed one with a `CastError`.
- The document store is a `List Book` in insertion order; `Model.create`
  appends, `findByIdAndUpdate`/`findByIdAndDelete` act on the first matching
  document.  The system clock and the freshly generated ObjectId are passed
  explicitly (`now`, `fresh`).
- A thrown / rejected JavaScript error is the `Except.error` branch of
  `Except JsError`; the Express error middleware `onError` turns it into the
  HTTP response `(err.status || 500, body)`.  None of the errors thrown by
  this code base (`ReferenceError`, Mongoose `ValidationError`, Mongoose
  `CastError`, server-side immutable-`_id` errors) carries a `status`
  property, so `onError` maps each of them to 500.
-/

/-- Whitespace as removed by JavaScript `String.prototype.trim()`
(space, tab, newline, carriage return cover every character occurring here). -/
def isWsChar (c : Char) : Bool :=
  c == ' ' || c == '\t' || c == '\n' || c == '\r'

/-- Trim on the character list: drop leading and trailing whitespace. -/
def trimChars (l : List Char) : List Char :=
  ((l.dropWhile isWsChar).reverse.dropWhile isWsChar).reverse

/-- JavaScript `s.trim()` / Mongoose `trim: true`. -/
def trimStr (s : String) : String :=
  String.mk (trimChars s.data)

/-- A persisted document of the `books` collection, shaped by `bookSchema`
(`src/models/Book.js`): `title`/`author` required strings, `status` an
enumeration defaulting to `"to-read"`, optional numeric `rating` in `[0,5]`,
`notes` defaulting to `""`, `tags` defaulting to `[]`, plus the
`timestamps: true` fields `createdAt`/`updatedAt` and the Mongo `_id`. -/
structure Book where
  _id : Nat
  title : String
  author : String
  status : String
  rating : Option Int
  notes : String
  tags : List String
  createdAt : Nat
  updatedAt : Nat
deriving DecidableEq, Repr

/-- The errors this code base can raise.  None of them has a `status`
property (only errors constructed with an explicit `.status` would). -/
inductive JsError where
  /-- Strict-mode access to an undeclared variable (ES modules are strict). -/
  | referenceError (name : String)
  /-- Mongoose schema validation failure (`ValidationError`). -/
  | validationError
  /-- Mongoose failure to cast a malformed id to `ObjectId` (`CastError`). -/
  | castError
  /-- MongoDB server error for an update that would alter the immutable
  `_id` path. -/
  | mongoServerError
deriving DecidableEq, Repr

/-- `err.status` — absent on every error of this code base. -/
def errStatusProp : JsError → Option Nat
  | .referenceError _ => none
  | .validationError => none
  | .castError => none
  | .mongoServerError => none

/-- `err.message`. -/
def errMessage : JsError → String
  | .referenceError n => n ++ " is not defined"
  | .validationError => "Book validation failed"
  | .castError => "Cast to ObjectId failed"
  | .mongoServerError => "Updating the path _id would modify the immutable field _id"

/-- JSON response bodies produced by the controllers. -/
inductive RespBody where
  /-- A single book document. -/
  | book (b : Book)
  /-- The list payload: total, page, limit, items. -/
  | list (total : Nat) (page limit : Int) (items : List Book)
  /-- An error object with a message. -/
  | errObj (msg : String)
  /-- The delete acknowledgment. -/
  | okAck
deriving DecidableEq, Repr

/-- `onError` from `src/middlewares/error.js`: respond with
`err.status || 500` and the error message. -/
def onError (e : JsError) : Nat × RespBody :=
  ((errStatusProp e).getD 500, .errObj (errMessage e))

/-- Run a controller under the Express pipeline: a thrown error falls through
to `onError`, leaving the store untouched. -/
def handle (st : List Book) (r : Except JsError (Nat × RespBody × List Book)) :
    Nat × RespBody × List Book :=
  match r with
  | .ok x => x
  | .error e => ((onError e).1, (onError e).2, st)

/-- A `/:id` path parameter, after Mongoose's `ObjectId` cast: either a
well-formed ObjectId or a malformed string the cast rejects. -/
inductive ReqId where
  | oid (n : Nat)
  | malformed (s : String)
deriving DecidableEq, Repr

/-- Lookup by `_id` (first match, as Mongo's unique-`_id` queries do). -/
def findBook (st : List Book) (n : Nat) : Option Book :=
  st.find? (fun b => b._id == n)

/-- `Book.findById`: cast the id (throwing `CastError` on a malformed one),
then look the document up. -/
def findById (st : List Book) (id : ReqId) : Except JsError (Option Book) :=
  match id with
  | .malformed _ => .error .castError
  | .oid n => .ok (findBook st n)

/-- The allowed `status` enumeration of `bookSchema`. -/
def statusEnum : List String := ["to-read", "reading", "finished"]

/-- The document `Book.create` assembles on success: the validated field
values plus the fresh `_id` and the `timestamps: true` pair
`createdAt = updatedAt = now`. -/
def newBook (now fresh : Nat) (title author status : String) (rating : Option Int)
    (notes : String) (tags : List String) : Book :=
  { _id := fresh, title := title, author := author, status := status,
    rating := rating, notes := notes, tags := tags,
    createdAt := now, updatedAt := now }

/-- `Book.create` (document validation and insertion):
applies the `trim` setter to `title`/`author`, the defaults
(`status := "to-read"`, `notes := ""`, `tags := []`), and the validators
(`required` on `title`/`author` — which fails on an empty string —, the
`status` enumeration, and `0 ≤ rating ≤ 5`).  On success the new document
gets the fresh `_id` and `createdAt = updatedAt = now` and is appended to
the collection. -/
def bookCreate (now fresh : Nat) (st : List Book)
    (title author : String) (status : Option String) (rating : Option Int)
    (notes : Option String) (tags : Option (List String)) :
    Except JsError (Book × List Book) :=
  if trimStr title = "" || trimStr author = "" then
    .error .validationError
  else if !(statusEnum.contains (status.getD "to-read")) then
    .error .validationError
  else
    match rating with
    | some r =>
      if r < 0 || 5 < r then
        .error .validationError
      else
        .ok (newBook now fresh (trimStr title) (trimStr author)
               (status.getD "to-read") (some r) (notes.getD "") (tags.getD []),
             st ++ [newBook now fresh (trimStr title) (trimStr author)
               (status.getD "to-read") (some r) (notes.getD "") (tags.getD [])])
    | none =>
      .ok (newBook now fresh (trimStr title) (trimStr author)
             (status.getD "to-read") none (notes.getD "") (tags.getD []),
           st ++ [newBook now fresh (trimStr title) (trimStr author)
             (status.getD "to-read") none (notes.getD "") (tags.getD [])])

/-- The JSON body of `POST /api/books`.  The controller destructures exactly
`{ title, author, status, rating, notes, tags }` from `req.body`; every other
body field ends up in `extra` and is never read. -/
structure CreateBody where
  title : Option String
  author : Option String
  status : Option String := none
  rating : Option Int := none
  notes : Option String := none
  tags : Option (List String) := none
  extra : List (String × String) := []
deriving DecidableEq, Repr

/-- JavaScript falsiness of an optional string field (`!title`):
absent (`undefined`) or the empty string. -/
def falsyStr : Option String → Bool
  | none => true
  | some s => s == ""

/-- `createBook` (`POST /api/books`): reject a falsy `title`/`author` with a
plain 400, otherwise `Book.create` on the trimmed fields and answer 201 with
the new document. -/
def createBook (now fresh : Nat) (st : List Book) (body : CreateBody) :
    Except JsError (Nat × RespBody × List Book) :=
  if falsyStr body.title || falsyStr body.author then
    .ok (400, .errObj "title y author son requeridos", st)
  else
    match bookCreate now fresh st (trimStr (body.title.getD ""))
        (trimStr (body.author.getD "")) body.status body.rating
        body.notes body.tags with
    | .error e => .error e
    | .ok (b, st') => .ok (201, .book b, st')

/-- The result of the JavaScript `Number(...)` coercion applied to a
non-empty query string: either `NaN` or a (finite) numeric value. -/
inductive QueryNum where
  | nan
  | num (v : Int)
deriving DecidableEq, Repr

/-- The query string of `GET /api/books`.  `page`/`limit` are `none` when
absent or empty (both falsy, so the controller's ternary takes its default
branch); otherwise they carry the `Number(...)` coercion of the raw string. -/
structure ListQuery where
  q : Option String := none
  status : Option String := none
  tag : Option String := none
  page : Option QueryNum := none
  limit : Option QueryNum := none
deriving DecidableEq, Repr

/-- Lines 53–56 of the controller: `page` defaults to 1; then
`Number.isFinite(page) && page > 0 ? page : 1`. -/
def toSafePage (p : Option QueryNum) : Int :=
  match p with
  | none => 1
  | some .nan => 1
  | some (.num v) => if 0 < v then v else 1

/-- Lines 53–58 of the controller: `limit` defaults to 50; then
`Number.isFinite(limit) && limit > 0 ? limit : 50`. -/
def toSafeLimit (l : Option QueryNum) : Int :=
  match l with
  | none => 50
  | some .nan => 50
  | some (.num v) => if 0 < v then v else 50

/-- `listBooks` (`GET /api/books`).  The source computes `page`, `limit`,
`safePage`, `safeLimit`, but the declaration `const filter = {};` is
commented out, so the first access to `filter` — one of the conditional
property assignments `filter.$or/.status/.tags = …`, or `Book.find(filter)`
when no filter parameter is present — throws
`ReferenceError: filter is not defined` (ES modules run in strict mode).
Every statement after that first access, including the `Book.find` /
`countDocuments` queries and the 200 response, is unreachable. -/
def listBooks (st : List Book) (query : ListQuery) :
    Except JsError (Nat × RespBody × List Book) :=
  let _safePage := toSafePage query.page
  let _safeLimit := toSafeLimit query.limit
  .error (.referenceError "filter")

/-- `listBooks` under the Express pipeline (`onError` included). -/
def listBooksHandled (st : List Book) (query : ListQuery) :
    Nat × RespBody × List Book :=
  handle st (listBooks st query)

/-- `getBook` (`GET /api/books/:id`): `findById`, 404 if absent, 200 with
the document otherwise. -/
def getBook (st : List Book) (id : ReqId) :
    Except JsError (Nat × RespBody × List Book) :=
  match findById st id with
  | .error e => .error e
  | .ok none => .ok (404, .errObj "Libro no encontrado", st)
  | .ok (some b) => .ok (200, .book b, st)

/-- `getBook` under the Express pipeline. -/
def getBookHandled (st : List Book) (id : ReqId) : Nat × RespBody × List Book :=
  handle st (getBook st id)

/-- The JSON body of `PATCH /api/books/:id` (`req.body` is passed to
`findByIdAndUpdate` as the update).  Unknown paths end up in `extra` and are
stripped by the schema's strict mode. -/
structure UpdateBody where
  _id : Option Nat := none
  title : Option String := none
  author : Option String := none
  status : Option String := none
  rating : Option Int := none
  notes : Option String := none
  tags : Option (List String) := none
  createdAt : Option Nat := none
  updatedAt : Option Nat := none
  extra : List (String × String) := []
deriving DecidableEq, Repr

/-- The `status` update validator: the enumeration check fails on an
updated status outside `statusEnum`. -/
def badStatusUpdate (u : UpdateBody) : Bool :=
  match u.status with
  | some s => !(statusEnum.contains s)
  | none => false

/-- The `rating` update validator: `min: 0, max: 5` fail on an updated
rating outside `[0, 5]`. -/
def badRatingUpdate (u : UpdateBody) : Bool :=
  match u.rating with
  | some r => r < 0 || 5 < r
  | none => false

/-- Whether the update tries to change the immutable `_id` path. -/
def idAltered (b : Book) (u : UpdateBody) : Bool :=
  match u._id with
  | some x => x != b._id
  | none => false

/-- `findByIdAndUpdate(id, updates, { new: true, runValidators: true })`
applied to the matched document `b`:
- strict mode strips unknown paths (`extra`);
- `timestamps: true` makes `createdAt` immutable, so an attempted
  `createdAt` update is stripped, and `updatedAt` is refreshed (an explicit
  client-supplied `updatedAt` value is kept);
- the update validators run first: the `trim` setter on `title`/`author`,
  the `status` enumeration, `0 ≤ rating ≤ 5` — each only on the paths the
  update touches (`required` does not re-fire on a `$set` string);
- then the server rejects an update that would alter the immutable `_id`. -/
def applyUpdates (now : Nat) (b : Book) (u : UpdateBody) : Except JsError Book :=
  if badStatusUpdate u || badRatingUpdate u then
    .error .validationError
  else if idAltered b u then
    .error .mongoServerError
  else
    .ok { b with
          title := match u.title with | some t => trimStr t | none => b.title,
          author := match u.author with | some a => trimStr a | none => b.author,
          status := u.status.getD b.status,
          rating := match u.rating with | some r => some r | none => b.rating,
          notes := u.notes.getD b.notes,
          tags := u.tags.getD b.tags,
          updatedAt := u.updatedAt.getD now }

/-- Replace the first document whose `_id` is `n` (the one
`findByIdAndUpdate` matched) by `b'`. -/
def replaceById (st : List Book) (n : Nat) (b' : Book) : List Book :=
  match st with
  | [] => []
  | c :: cs => if c._id == n then b' :: cs else c :: replaceById cs n b'

/-- `updateBook` (`PATCH /api/books/:id`): `findByIdAndUpdate` with
`new: true, runValidators: true`; 404 when the id resolves to nothing,
otherwise 200 with the post-update document. -/
def updateBook (now : Nat) (st : List Book) (id : ReqId) (u : UpdateBody) :
    Except JsError (Nat × RespBody × List Book) :=
  match id with
  | .malformed _ => .error .castError
  | .oid n =>
    match findBook st n with
    | none => .ok (404, .errObj "Libro no encontrado", st)
    | some b =>
      match applyUpdates now b u with
      | .error e => .error e
      | .ok b' => .ok (200, .book b', replaceById st n b')

/-- `updateBook` under the Express pipeline. -/
def updateBookHandled (now : Nat) (st : List Book) (id : ReqId) (u : UpdateBody) :
    Nat × RespBody × List Book :=
  handle st (updateBook now st id u)

/-- Remove the first document whose `_id` is `n` (the one
`findByIdAndDelete` matched). -/
def removeById (st : List Book) (n : Nat) : List Book :=
  match st with
  | [] => []
  | c :: cs => if c._id == n then cs else c :: removeById cs n

/-- `removeBook` (`DELETE /api/books/:id`): `findByIdAndDelete`; 404 when
nothing matched, otherwise the acknowledgment `{ ok: true }` — the deleted
document itself is not returned. -/
def removeBook (st : List Book) (id : ReqId) :
    Except JsError (Nat × RespBody × List Book) :=
  match id with
  | .malformed _ => .error .castError
  | .oid n =>
    match findBook st n with
    | none => .ok (404, .errObj "Libro no encontrado", st)
    | some _ => .ok (200, .okAck, removeById st n)

/-- `createBook` under the Express pipeline. -/
def createBookHandled (now fresh : Nat) (st : List Book) (body : CreateBody) :
    Nat × RespBody × List Book :=
  handle st (createBook now fresh st body)

/-! ## Helper lemmas -/

theorem dropWhile_dropWhile (p : α → Bool) (l : List α) :
    (l.dropWhile p).dropWhile p = l.dropWhile p := by
  induction l with
  | nil => rfl
  | cons a t ih =>
    by_cases h : p a
    · simpa [List.dropWhile_cons_of_pos h] using ih
    · simp [List.dropWhile_cons_of_neg h]

theorem dropWhile_eq_self_of_prefix (p : α → Bool) {l m : List α}
    (hp : m <+: l) (hl : l.dropWhile p = l) : m.dropWhile p = m := by
  cases m with
  | nil => rfl
  | cons a t =>
    obtain ⟨r, hr⟩ := hp
    subst hr
    by_cases h : p a
    · rw [List.cons_append, List.dropWhile_cons_of_pos h] at hl
      have hle := (List.dropWhile_sublist (l := t ++ r) p).length_le
      rw [hl] at hle
      simp at hle
    · exact List.dropWhile_cons_of_neg h

theorem trimChars_prefix_dropWhile (l : List Char) :
    trimChars l <+: l.dropWhile isWsChar := by
  have h : (trimChars l).reverse <:+ (l.dropWhile isWsChar).reverse := by
    unfold trimChars
    rw [List.reverse_reverse]
    exact List.dropWhile_suffix _
  exact List.reverse_suffix.mp h

theorem trimChars_dropWhile (l : List Char) :
    (trimChars l).dropWhile isWsChar = trimChars l :=
  dropWhile_eq_self_of_prefix isWsChar (trimChars_prefix_dropWhile l)
    (dropWhile_dropWhile isWsChar l)

theorem trimChars_idem (l : List Char) : trimChars (trimChars l) = trimChars l := by
  show (((trimChars l).dropWhile isWsChar).reverse.dropWhile isWsChar).reverse = trimChars l
  rw [trimChars_dropWhile]
  have h2 : (trimChars l).reverse = ((l.dropWhile isWsChar).reverse).dropWhile isWsChar := by
    unfold trimChars
    rw [List.reverse_reverse]
  rw [h2, dropWhile_dropWhile, ← h2, List.reverse_reverse]

theorem trimStr_idem (s : String) : trimStr (trimStr s) = trimStr s := by
  show String.mk (trimChars (String.mk (trimChars s.data)).data) = String.mk (trimChars s.data)
  rw [show (String.mk (trimChars s.data)).data = trimChars s.data from rfl, trimChars_idem]

theorem trimStr_empty : trimStr "" = "" := rfl

theorem findBook_append_self (st : List Book) (b : Book)
    (h : findBook st b._id = none) : findBook (st ++ [b]) b._id = some b := by
  unfold findBook at *
  rw [List.find?_append, h]
  simp

theorem findBook_removeById (n : Nat) (st : List Book)
    (h : (st.map (fun b => b._id)).Nodup) :
    findBook (removeById st n) n = none := by
  induction st with
  | nil => rfl
  | cons c cs ih =>
    rw [List.map_cons, List.nodup_cons] at h
    show findBook (if c._id == n then cs else c :: removeById cs n) n = none
    by_cases hc : c._id = n
    · rw [if_pos (by simpa using hc)]
      subst hc
      unfold findBook
      rw [List.find?_eq_none]
      intro x hx hpx
      exact h.1 (List.mem_map.mpr ⟨x, hx, by simpa using hpx⟩)
    · rw [if_neg (by simpa using hc)]
      unfold findBook
      rw [List.find?_cons_of_neg _ (by simpa using hc)]
      exact ih h.2

/-- A concrete stored document used by the concrete-input theorems below. -/
def bDune : Book :=
  { _id := 1, title := "Dune", author := "Frank Herbert", status := "to-read",
    rating := none, notes := "", tags := ["sci-fi"], createdAt := 10, updatedAt := 10 }

/-! ## Claims -/

/-- C1: the spec's List contract — a 200 response carrying
`{total, page, limit, items}` with the filtered, sorted, paginated records —
is never delivered by the code: because the declaration of `filter` is
commented out, every list request (any store, any query) falls through to
the error middleware as a `ReferenceError` and is answered 500 with an error
body, leaving the store untouched.  This refutes the claimed 200 behaviour
on every input. -/
theorem C1_list_never_responds_200 (st : List Book) (query : ListQuery) :
    listBooksHandled st query = (500, .errObj "filter is not defined", st) := rfl

/-- C2: every invocation of `listBooks`, whatever the store and query
parameters, reads the undeclared `filter` variable and throws
`ReferenceError: filter is not defined` before any query reaches the
document store; the success path is unreachable. -/
theorem C2_list_reference_error (st : List Book) (query : ListQuery) :
    listBooks st query = .error (.referenceError "filter") := rfl

/-- C6: the `page`/`limit` sanitisation of `listBooks` does substitute the
defaults 1 and 50 for absent, non-finite (`NaN`) and non-positive values —
but the claimed 200 response echoing those substituted values never
happens: at the failing input `page=0&limit=NaN` (and every other input)
the operation dies with the `filter` `ReferenceError` and answers 500. -/
theorem C6_defaults_substituted_but_no_response :
    toSafePage none = 1 ∧ toSafeLimit none = 50 ∧
    toSafePage (some (QueryNum.num 0)) = 1 ∧
    toSafePage (some QueryNum.nan) = 1 ∧
    toSafeLimit (some (QueryNum.num (-7))) = 50 ∧
    toSafeLimit (some QueryNum.nan) = 50 ∧
    toSafePage (some (QueryNum.num 3)) = 3 ∧
    toSafeLimit (some (QueryNum.num 2)) = 2 ∧
    listBooksHandled [] { page := some (QueryNum.num 0), limit := some QueryNum.nan } =
      (500, .errObj "filter is not defined", []) :=
  ⟨rfl, rfl, by decide, rfl, by decide, rfl, by decide, by decide, rfl⟩

/-- C3 counterexample: a malformed id on `GET /api/books/:id` is answered
500 (Mongoose's `CastError` carries no `.status`, so `onError` defaults to
500), not the claimed 404. -/
theorem C3_malformed_id_counterexample :
    (getBookHandled [] (.malformed "not-an-objectid")).1 = 500 ∧
    (getBookHandled [] (.malformed "not-an-objectid")).1 ≠ 404 :=
  ⟨rfl, by decide⟩

/-- C3 amended: a well-formed id matching no record is answered 404 with
the not-found body, but a malformed id raises a `CastError` that the error
middleware turns into a 500 server error (the claim's "never as HTTP 500"
fails). -/
theorem C3_get_notfound_vs_malformed (st : List Book) (n : Nat) (s : String)
    (h : findBook st n = none) :
    getBookHandled st (.oid n) = (404, .errObj "Libro no encontrado", st) ∧
    getBookHandled st (.malformed s) = (500, .errObj "Cast to ObjectId failed", st) := by
  constructor
  · simp [getBookHandled, handle, getBook, findById, h]
  · rfl

/-- C3 witness: the amended statement at a concrete store and ids. -/
theorem C3_get_notfound_vs_malformed_witness :
    getBookHandled [] (.oid 7) = (404, .errObj "Libro no encontrado", []) ∧
    getBookHandled [] (.malformed "zzz") = (500, .errObj "Cast to ObjectId failed", []) :=
  C3_get_notfound_vs_malformed [] 7 "zzz" rfl

/-- C4 counterexample: updating `bDune` with `rating := 6` is answered
500 — Mongoose's `ValidationError` carries no `.status`, so `onError`
defaults to 500 — not the claimed 400; the store is unchanged. -/
theorem C4_rating_update_counterexample :
    (updateBookHandled 11 [bDune] (.oid 1) { rating := some 6 }).1 = 500 ∧
    (updateBookHandled 11 [bDune] (.oid 1) { rating := some 6 }).1 ≠ 400 ∧
    (updateBookHandled 11 [bDune] (.oid 1) { rating := some 6 }).2.2 = [bDune] :=
  ⟨rfl, by decide, rfl⟩

/-- C4 amended: for every stored record, a partial update whose rating lies
outside `[0, 5]` fails with `ValidationError` and leaves the stored record
unchanged — but the error is mapped to HTTP 500 (no `.status` on the
error), not to HTTP 400. -/
theorem C4_update_bad_rating (now : Nat) (st : List Book) (n : Nat) (b : Book)
    (u : UpdateBody) (r : Int) (hb : findBook st n = some b)
    (hr : u.rating = some r) (hout : r < 0 ∨ 5 < r) :
    updateBook now st (.oid n) u = .error .validationError ∧
    updateBookHandled now st (.oid n) u =
      (500, .errObj "Book validation failed", st) := by
  have hbad : badRatingUpdate u = true := by
    unfold badRatingUpdate
    rw [hr]
    simp only [Bool.or_eq_true, decide_eq_true_eq]
    exact hout
  have happ : applyUpdates now b u = .error .validationError := by
    unfold applyUpdates
    rw [if_pos (by simp [hbad])]
  constructor
  · simp [updateBook, hb, happ]
  · simp [updateBookHandled, handle, updateBook, hb, happ, onError,
          errStatusProp, errMessage]

/-- C4 witness: the amended statement at the concrete store `[bDune]` and
the out-of-range rating 6. -/
theorem C4_update_bad_rating_witness :
    updateBook 11 [bDune] (.oid 1) { rating := some 6 } = .error .validationError ∧
    updateBookHandled 11 [bDune] (.oid 1) { rating := some 6 } =
      (500, .errObj "Book validation failed", [bDune]) :=
  C4_update_bad_rating 11 [bDune] 1 bDune { rating := some 6 } 6 rfl rfl
    (Or.inr (by decide))

/-- C5 counterexample: a title of `" "` (truthy, but empty after trimming)
passes the controller's falsiness check, fails the schema's `required`
validator inside `Book.create`, and is answered 500 — not the claimed
400; nothing is persisted. -/
theorem C5_whitespace_title_counterexample :
    (createBookHandled 3 9 [] { title := some " ", author := some "Asimov" }).1 = 500 ∧
    (createBookHandled 3 9 [] { title := some " ", author := some "Asimov" }).1 ≠ 400 ∧
    (createBookHandled 3 9 [] { title := some " ", author := some "Asimov" }).2.2 = [] :=
  ⟨rfl, by decide, rfl⟩

/-- C5 amended: a create request whose title or author is empty after
trimming persists nothing, and the status code distinguishes the two
failure paths: a missing or empty (falsy) title/author is rejected by the
controller with HTTP 400, while a whitespace-only (truthy) one reaches the
schema's `required` validator, whose `ValidationError` the error middleware
maps to HTTP 500 — not 400 as claimed. -/
theorem C5_create_invalid_title_author (now fresh : Nat) (st : List Book)
    (body : CreateBody)
    (h : trimStr (body.title.getD "") = "" ∨ trimStr (body.author.getD "") = "") :
    createBookHandled now fresh st body =
      (if falsyStr body.title || falsyStr body.author then 400 else 500,
       .errObj (if falsyStr body.title || falsyStr body.author then
                  "title y author son requeridos"
                else "Book validation failed"),
       st) := by
  by_cases hf : (falsyStr body.title || falsyStr body.author) = true
  · simp [createBookHandled, handle, createBook, hf]
  · have hcond : (decide (trimStr (body.title.getD "") = "") ||
        decide (trimStr (body.author.getD "") = "")) = true := by
      rcases h with h | h
      · simp [h]
      · simp [h]
    have hgoal : createBookHandled now fresh st body =
        (500, .errObj "Book validation failed", st) := by
      unfold createBookHandled handle createBook
      rw [if_neg hf]
      unfold bookCreate
      rw [trimStr_idem, trimStr_idem, if_pos hcond]
      rfl
    rw [hgoal, if_neg hf, if_neg hf]

/-- C5 witness: the amended statement at a whitespace-only title (the
500 branch). -/
theorem C5_create_invalid_title_author_witness :
    createBookHandled 0 1 [] { title := some " ", author := some "Asimov" } =
      (500, .errObj "Book validation failed", []) :=
  C5_create_invalid_title_author 0 1 [] { title := some " ", author := some "Asimov" }
    (Or.inl (by decide))

/-- C7: a create request with valid (non-empty after trimming) title and
author and all optional fields omitted persists a record with the trimmed
title/author, default status `"to-read"`, empty notes and empty tags, is
answered 201 with that record, and a get-by-id on the returned id yields
the very same record with 200. -/
theorem C7_create_then_get (now fresh : Nat) (st : List Book) (t a : String)
    (h1 : trimStr t ≠ "") (h2 : trimStr a ≠ "") (h3 : findBook st fresh = none) :
    ∃ b : Book,
      createBook now fresh st { title := some t, author := some a } =
        .ok (201, .book b, st ++ [b]) ∧
      b.title = trimStr t ∧ b.author = trimStr a ∧ b.status = "to-read" ∧
      b.rating = none ∧ b.notes = "" ∧ b.tags = [] ∧
      getBookHandled (st ++ [b]) (.oid b._id) = (200, .book b, st ++ [b]) := by
  refine ⟨newBook now fresh (trimStr t) (trimStr a) "to-read" none "" [],
          ?_, rfl, rfl, rfl, rfl, rfl, rfl, ?_⟩
  · have hfal : ¬((falsyStr (some t) || falsyStr (some a)) = true) := by
      simp only [falsyStr, Bool.or_eq_true, beq_iff_eq]
      push_neg
      exact ⟨fun he => h1 (by rw [he]; rfl), fun he => h2 (by rw [he]; rfl)⟩
    have hreq : ¬((decide (trimStr t = "") || decide (trimStr a = "")) = true) := by
      simp [h1, h2]
    dsimp only [createBook]
    rw [if_neg hfal]
    dsimp only [bookCreate, Option.getD_some, Option.getD_none]
    rw [trimStr_idem, trimStr_idem, if_neg hreq]
    rfl
  · dsimp only [newBook]
    have hfind := findBook_append_self st
      { _id := fresh, title := trimStr t, author := trimStr a, status := "to-read",
        rating := none, notes := "", tags := [], createdAt := now, updatedAt := now } h3
    simp [getBookHandled, handle, getBook, findById, hfind]

/-- C7 witness: create `" Dune "` / `"Frank Herbert"` into the empty store
and get it back. -/
theorem C7_create_then_get_witness :
    ∃ b : Book,
      createBook 3 9 [] { title := some " Dune ", author := some "Frank Herbert" } =
        .ok (201, .book b, [] ++ [b]) ∧
      b.title = trimStr " Dune " ∧ b.author = trimStr "Frank Herbert" ∧
      b.status = "to-read" ∧ b.rating = none ∧ b.notes = "" ∧ b.tags = [] ∧
      getBookHandled ([] ++ [b]) (.oid b._id) = (200, .book b, [] ++ [b]) :=
  C7_create_then_get 3 9 [] " Dune " "Frank Herbert" (by decide) (by decide) rfl

/-- C8: for every stored record and every partial-update request, the
record's `_id` and `createdAt` are left unchanged whatever the update body
supplies.  The two branches of `applyUpdates` are exhaustive in the update
body, so every request is covered: a successful update replaces only the
matched document with one keeping the pre-update `_id` and `createdAt` (a
supplied `createdAt` is stripped by the timestamps handling), and a failing
update — including one supplying a different `_id`, which is rejected with
the immutable-`_id` server error — is answered 500 with the store returned
untouched, so the stored record is unchanged there too. -/
theorem C8_update_preserves_id_createdAt (now : Nat) (st : List Book) (n : Nat)
    (b : Book) (u : UpdateBody) (hb : findBook st n = some b) :
    match applyUpdates now b u with
    | .ok b' =>
        updateBook now st (.oid n) u = .ok (200, .book b', replaceById st n b') ∧
        b'._id = b._id ∧ b'.createdAt = b.createdAt
    | .error e =>
        updateBookHandled now st (.oid n) u = (500, .errObj (errMessage e), st) := by
  split
  next b' heq =>
    have hframe : b'._id = b._id ∧ b'.createdAt = b.createdAt := by
      unfold applyUpdates at heq
      split at heq
      · exact absurd heq (by simp)
      · split at heq
        · exact absurd heq (by simp)
        · injection heq with h
          subst h
          exact ⟨rfl, rfl⟩
    exact ⟨by simp [updateBook, hb, heq], hframe.1, hframe.2⟩
  next e heq =>
    have hstat : errStatusProp e = none := by cases e <;> rfl
    simp [updateBookHandled, handle, updateBook, hb, heq, onError, hstat]

/-- The document the C8 witness's successful update produces. -/
def bDuneReading : Book :=
  { bDune with status := "reading", updatedAt := 11 }

/-- C8 witness: both branches at concrete inputs.  Updating `bDune` with a
new status and a client-supplied `createdAt := 999` succeeds, strips the
`createdAt` attempt and keeps `_id`/`createdAt`; updating it with a
different `_id := 2` fails with the immutable-`_id` server error, answered
500 with the store — and hence the stored record — unchanged. -/
theorem C8_update_preserves_id_createdAt_witness :
    (updateBook 11 [bDune] (.oid 1)
          { status := some "reading", createdAt := some 999 } =
        .ok (200, .book bDuneReading, replaceById [bDune] 1 bDuneReading) ∧
      bDuneReading._id = bDune._id ∧ bDuneReading.createdAt = bDune.createdAt) ∧
    updateBookHandled 11 [bDune] (.oid 1) { _id := some 2 } =
      (500, .errObj "Updating the path _id would modify the immutable field _id",
       [bDune]) :=
  ⟨C8_update_preserves_id_createdAt 11 [bDune] 1 bDune
      { status := some "reading", createdAt := some 999 } rfl,
   C8_update_preserves_id_createdAt 11 [bDune] 1 bDune { _id := some 2 } rfl⟩

/-- C9: deleting a stored record answers 200 with the bare acknowledgment
`{ok:true}` (not the deleted content), and a subsequent get-by-id on the
same id is answered 404. -/
theorem C9_delete_then_get (st : List Book) (n : Nat) (b : Book)
    (h1 : findBook st n = some b)
    (h2 : (st.map (fun b => b._id)).Nodup) :
    removeBook st (.oid n) = .ok (200, .okAck, removeById st n) ∧
    getBookHandled (removeById st n) (.oid n) =
      (404, .errObj "Libro no encontrado", removeById st n) := by
  refine ⟨by simp [removeBook, h1], ?_⟩
  simp [getBookHandled, handle, getBook, findById, findBook_removeById n st h2]

/-- C9 witness: delete `bDune` then get its id. -/
theorem C9_delete_then_get_witness :
    removeBook [bDune] (.oid 1) = .ok (200, .okAck, removeById [bDune] 1) ∧
    getBookHandled (removeById [bDune] 1) (.oid 1) =
      (404, .errObj "Libro no encontrado", removeById [bDune] 1) :=
  C9_delete_then_get [bDune] 1 bDune rfl (by decide)

/-- C10: the create operation reads only the six destructured body fields
`title, author, status, rating, notes, tags`; two bodies agreeing on those
six (whatever their other fields, e.g. a client-supplied id or timestamps)
produce identical results — same response and same persisted store. -/
theorem C10_create_ignores_extra_fields (now fresh : Nat) (st : List Book)
    (b1 b2 : CreateBody) (ht : b1.title = b2.title) (ha : b1.author = b2.author)
    (hs : b1.status = b2.status) (hr : b1.rating = b2.rating)
    (hn : b1.notes = b2.notes) (hg : b1.tags = b2.tags) :
    createBook now fresh st b1 = createBook now fresh st b2 := by
  cases b1
  cases b2
  dsimp only at ht ha hs hr hn hg
  subst ht ha hs hr hn hg
  rfl

/-- C10 witness: two concrete bodies differing only in body fields outside
the six (a client-supplied `id` and `createdAt`) create identically. -/
theorem C10_create_ignores_extra_fields_witness :
    createBook 3 9 []
        { title := some "Dune", author := some "Frank Herbert",
          extra := [("id", "someClientId"), ("createdAt", "1999-01-01")] } =
      createBook 3 9 [] { title := some "Dune", author := some "Frank Herbert" } :=
  C10_create_ignores_extra_fields 3 9 [] _ _ rfl rfl rfl rfl rfl rfl
